import Mathlib

/-!
Shallow embedding of `notus/scanner/loader/gpg_sha_verifier.py`.

The module has three pieces:
  * `gpg_sha256sums hash_file gpg`: opens `<hash_file>.asc` (raising an
    OSError if that fails), calls `gpg.verify_file`, returns `None` when the
    signature does not validate, and otherwise parses the manifest line by
    line with `hsum, fname = line.split("  ")` (raising `ValueError` when a
    line does not split into exactly two parts) into a dict
    `hsum -> fname.split("/")[-1].strip()`.
  * `reload_sha256sums config` / the inner closure `internal_reload`:
    fingerprints the manifest with SHA-1, and when the cache is falsy
    (absent or the empty dict) or the fingerprint changed, first assigns
    `config.fingerprint = fingerprint` and then
    `config.cache = gpg_sha256sums(...)`; afterwards a falsy cache is
    answered with `config.on_verification_failure(None)`.
  * `create_verify(sha256sums)` / the inner closure `verify`: classifies a
    candidate path as INVALID_FILE / INVALID_HASH / INVALID_NAME / SUCCESS.

The embedding models the filesystem as a map from path strings to a
`FileState`; hash functions (`sha256`, `sha1`) and GPG signature checking
(`gpgVerify`, fed the signature bytes and the manifest path exactly as
`gpg.verify_file(f, str(hash_file.absolute()))` is) are opaque function
parameters, since the spec treats them as external capabilities.  Python
exceptions are modelled with `Except`/explicit error constructors, and the
partially mutated `ReloadConfiguration` is returned alongside the result so
that state left behind by a raised exception is visible.  `verifs` counts
how many times `gpg.verify_file` runs during a call (it runs exactly when
the `.asc` file opens successfully).
-/

/-- State of one path in the modelled filesystem.
`missing`: no regular file at the path (`Path.is_file()` is `False`, opening
raises).  `statError`: the stat underlying `Path.is_file()` raises an
`OSError`, which `is_file` swallows, returning `False`.  `unreadable`: a
regular file (`is_file` is `True`) whose `open` raises an `OSError`.
`readable content`: a regular file whose bytes read as `content`. -/
inductive FileState where
  | missing
  | statError
  | unreadable
  | readable (content : String)
deriving DecidableEq

/-- The filesystem: every path string has a `FileState`. -/
abbrev FileSystem := String → FileState

/-- `Path.is_file()`: true exactly on regular files; stat errors are
swallowed and reported as `false`. -/
def is_file : FileState → Bool
  | .missing => false
  | .statError => false
  | .unreadable => true
  | .readable _ => true

/-- A Python `Dict[str, str]` as an association list with unique keys,
in insertion order (as `result[hsum] = ...` builds it). -/
abbrev Dict := List (String × String)

/-- `d.get(key)`: the value stored under `key`, if any. -/
def dget : Dict → String → Option String
  | [], _ => none
  | (k, v) :: rest, key => if k = key then some v else dget rest key

/-- `d[key] = value`: replace the value under `key` in place, or append a
fresh entry. -/
def dictInsert : Dict → String → String → Dict
  | [], k, v => [(k, v)]
  | (k', v') :: rest, k, v =>
    if k' = k then (k, v) :: rest else (k', v') :: dictInsert rest k v

/-- Python truthiness test `not config.cache`: `None` and the empty dict are
falsy. -/
def dictFalsy : Option Dict → Bool
  | none => true
  | some d => d.isEmpty

/-- Python `str.split` on the fixed two-space separator, over character
lists: scan left to right, splitting at each non-overlapping occurrence of
two consecutive spaces.  `acc` holds the current field reversed. -/
def splitTwoSpaceAux : List Char → List Char → List (List Char)
  | [], acc => [acc.reverse]
  | [x], acc => [(x :: acc).reverse]
  | x :: y :: rest, acc =>
    if x = ' ' && y = ' ' then acc.reverse :: splitTwoSpaceAux rest []
    else splitTwoSpaceAux (y :: rest) (x :: acc)

/-- `line.split("  ")` as a list of strings. -/
def splitTwoSpace (line : String) : List String :=
  (splitTwoSpaceAux line.data []).map String.mk

/-- The whitespace set of Python `str.strip()`. -/
def isPySpace (c : Char) : Bool :=
  c = ' ' || c = '\t' || c = '\n' || c = '\r' || c = '\x0b' || c = '\x0c'

/-- Drop the leading run of Python whitespace. -/
def dropLeadingSpace : List Char → List Char
  | [] => []
  | c :: cs => if isPySpace c then dropLeadingSpace cs else c :: cs

/-- Python `s.strip()`: remove leading and trailing whitespace. -/
def pyStrip (s : String) : String :=
  String.mk (dropLeadingSpace (dropLeadingSpace s.data.reverse).reverse)

/-- Characters after the last `/` (the whole list when there is none):
`s.split("/")[-1]`, which is also how `Path.name` behaves on the
plain relative-or-absolute file paths this module handles. -/
def lastSegmentAux : List Char → List Char → List Char
  | [], acc => acc.reverse
  | c :: cs, acc =>
    if c = '/' then lastSegmentAux cs [] else lastSegmentAux cs (c :: acc)

/-- `s.split("/")[-1]` / `Path.name`. -/
def basename (p : String) : String := String.mk (lastSegmentAux p.data [])

/-- Helper for `readlines`: accumulate the current line (reversed) while
scanning the remaining characters. -/
def readlinesAux : List Char → List Char → List String
  | [], [] => []
  | [], acc => [String.mk acc.reverse]
  | c :: rest, acc =>
    if c = '\n' then String.mk (acc.reverse ++ [c]) :: readlinesAux rest []
    else readlinesAux rest (c :: acc)

/-- `f.readlines()`: the lines of the file, each keeping its trailing
newline; a final fragment without a newline is kept too. -/
def readlines (s : String) : List String := readlinesAux s.data []

/-- One iteration of the manifest-parsing loop body
`hsum, fname = line.split("  "); result[hsum] = fname.split("/")[-1].strip()`:
`some (hsum, normalized-name)` when the tuple unpacking succeeds, `none`
when `line.split("  ")` has a length other than two and the unpacking
raises `ValueError`. -/
def parseLine (line : String) : Option (String × String) :=
  match splitTwoSpace line with
  | [hsum, fname] => some (hsum, pyStrip (basename fname))
  | _ => none

/-- The manifest-parsing loop over all lines, threading the dict being
built; `none` as soon as one line raises. -/
def parseLines : List String → Dict → Option Dict
  | [], acc => some acc
  | line :: rest, acc =>
    match parseLine line with
    | some (h, n) => parseLines rest (dictInsert acc h n)
    | none => none

/-- The four ways a call to `gpg_sha256sums` can end: an uncaught `OSError`
(the `.asc` or the manifest failed to open), an uncaught `ValueError` from a
malformed line, the `None` return when the signature does not validate, or
the parsed dict. -/
inductive GpgLoad where
  | ioError
  | parseError
  | verifyFailed
  | ok (m : Dict)
deriving DecidableEq

/-- `gpg_sha256sums(hash_file, gpg)`: open `<hash_file>.asc` (an open
failure is an uncaught `OSError`), run `gpg.verify_file` on the signature
bytes and the manifest path, return `None` when it reports invalid, and
otherwise open and parse the manifest. -/
def gpg_sha256sums (fs : FileSystem) (gpgVerify : String → String → Bool)
    (hash_file : String) : GpgLoad :=
  match fs (hash_file ++ ".asc") with
  | .readable sig =>
    if gpgVerify sig hash_file then
      match fs hash_file with
      | .readable content =>
        match parseLines (readlines content) [] with
        | some m => .ok m
        | none => .parseError
      | _ => .ioError
    else .verifyFailed
  | _ => .ioError

/-- The `VerificationResult` enum. -/
inductive VerificationResult where
  | INVALID_FILE
  | INVALID_HASH
  | INVALID_NAME
  | SUCCESS
deriving DecidableEq

instance {ε α : Type} [DecidableEq ε] [DecidableEq α] :
    DecidableEq (Except ε α) := fun x y =>
  match x, y with
  | .ok a, .ok b =>
    if h : a = b then .isTrue (by rw [h])
    else .isFalse (fun hh => h (Except.ok.injEq a b ▸ hh))
  | .error a, .error b =>
    if h : a = b then .isTrue (by rw [h])
    else .isFalse (fun hh => h (Except.error.injEq a b ▸ hh))
  | .ok _, .error _ => .isFalse (fun hh => Except.noConfusion hh)
  | .error _, .ok _ => .isFalse (fun hh => Except.noConfusion hh)

/-- The closure `verify(advisory_path)` produced by `create_verify`,
applied to the mapping the provider returned.  `Except.error ()` models an
uncaught `OSError`: the code checks `advisory_path.is_file()` but opens the
file with no exception handler, so a regular file that fails to open
raises.  `sha256` is the content-hash capability
(`hashlib.sha256(...).hexdigest()` of the file bytes). -/
def verify (fs : FileSystem) (sha256 : String → String) (sha256sums : Dict)
    (advisory_path : String) : Except Unit VerificationResult :=
  match fs advisory_path with
  | .missing => .ok .INVALID_FILE
  | .statError => .ok .INVALID_FILE
  | .unreadable => .error ()
  | .readable content =>
    let hash_sum := sha256 content
    match dget sha256sums hash_sum with
    | none => .ok .INVALID_HASH
    | some assumed_name =>
      if assumed_name = "" then .ok .INVALID_HASH
      else if assumed_name = basename advisory_path then .ok .SUCCESS
      else .ok .INVALID_NAME

/-- The mutable fields of `ReloadConfiguration` (the `hash_file` never
changes; `gpg` and `on_verification_failure` are passed separately). -/
structure ReloadConfiguration where
  hash_file : String
  cache : Option Dict
  fingerprint : String
deriving DecidableEq

/-- The exception with which a call to `internal_reload` can escape. -/
inductive ReloadError where
  | ioError
  | parseError
deriving DecidableEq

/-- Outcome of one call to `internal_reload`: the returned dict or the
escaped exception, the `ReloadConfiguration` as the call leaves it (also
when an exception escapes mid-way), and how many GPG signature
verifications the call performed. -/
structure ReloadResult where
  ret : Except ReloadError Dict
  cfg : ReloadConfiguration
  verifs : Nat
deriving DecidableEq

/-- The tail of `internal_reload` after the conditional reload:
`if not config.cache: return config.on_verification_failure(None)` /
`return config.cache`. -/
def reloadFinish (onFail : Option Dict → Dict) (cfg : ReloadConfiguration)
    (verifs : Nat) : ReloadResult :=
  match cfg.cache with
  | some d => if d.isEmpty then ⟨.ok (onFail none), cfg, verifs⟩ else ⟨.ok d, cfg, verifs⟩
  | none => ⟨.ok (onFail none), cfg, verifs⟩

/-- The closure `internal_reload()` produced by `reload_sha256sums`.
`create_hash` (SHA-1 of the manifest bytes) raises if the manifest cannot
be opened, leaving the configuration untouched.  When the cache is falsy or
the fingerprint changed, the code assigns `config.fingerprint` first and
`config.cache = gpg_sha256sums(...)` second, so an exception raised inside
`gpg_sha256sums` escapes with the fingerprint already replaced and the old
cache still in place.  Inside this closure the manifest is readable (it was
just fingerprinted), so `gpg_sha256sums` performs its signature
verification exactly when the `.asc` file opens, i.e. in every branch but
its `ioError` one. -/
def internal_reload (fs : FileSystem) (sha1 : String → String)
    (gpgVerify : String → String → Bool) (onFail : Option Dict → Dict)
    (cfg : ReloadConfiguration) : ReloadResult :=
  match fs cfg.hash_file with
  | .readable content =>
    let fingerprint := sha1 content
    if dictFalsy cfg.cache || cfg.fingerprint != fingerprint then
      let cfg1 : ReloadConfiguration := { cfg with fingerprint := fingerprint }
      match gpg_sha256sums fs gpgVerify cfg.hash_file with
      | .ok m => reloadFinish onFail { cfg1 with cache := some m } 1
      | .verifyFailed => reloadFinish onFail { cfg1 with cache := none } 1
      | .ioError => ⟨.error .ioError, cfg1, 0⟩
      | .parseError => ⟨.error .parseError, cfg1, 1⟩
    else reloadFinish onFail cfg 0
  | _ => ⟨.error .ioError, cfg, 0⟩

/-! ## Concrete scenarios -/

/-- A GPG capability that accepts every signature. -/
def gvTrue : String → String → Bool := fun _ _ => true

/-- A GPG capability that rejects every signature. -/
def gvFalse : String → String → Bool := fun _ _ => false

/-- A failure handler that falls back to the empty mapping. -/
def onFailEmpty : Option Dict → Dict := fun _ => []

/-- A failure handler whose output records which argument it received. -/
def onFailProbe : Option Dict → Dict
  | none => [("N", "N")]
  | some _ => [("S", "S")]

/-- A filesystem with manifest `m` holding `content` and signature sibling
`m.asc` holding `s`. -/
def fsWith (content : String) : FileSystem := fun p =>
  if p = "m" then .readable content
  else if p = "m.asc" then .readable "s" else .missing

/-- A filesystem with a readable manifest `m` but no signature sibling. -/
def fsNoAsc : FileSystem := fun p => if p = "m" then .readable "c" else .missing

/-- A filesystem with one readable candidate file `f`. -/
def fsF : FileSystem := fun p => if p = "f" then .readable "body" else .missing

/-- A filesystem where the candidate `f` is a regular file that cannot be
opened. -/
def fsU : FileSystem := fun p => if p = "f" then .unreadable else .missing

/-- A filesystem where even stat-ing the candidate `f` fails. -/
def fsStat : FileSystem := fun p => if p = "f" then .statError else .missing

/-- A configuration holding a stale fingerprint and a non-empty cache. -/
def cfgStale : ReloadConfiguration := ⟨"m", some [("p", "q")], "old"⟩

/-- The pristine configuration `reload_sha256sums` starts from. -/
def cfgFresh : ReloadConfiguration := ⟨"m", none, ""⟩

/-! ## Shared characterization lemmas -/

/-- `reloadFinish` never touches the configuration. -/
theorem reloadFinish_cfg (onFail : Option Dict → Dict) (c : ReloadConfiguration)
    (v : Nat) : (reloadFinish onFail c v).cfg = c := by
  unfold reloadFinish
  rcases hc : c.cache with _ | d
  · rfl
  · by_cases h : d.isEmpty <;> simp [h]

/-- `reloadFinish` never changes the verification count it is handed. -/
theorem reloadFinish_verifs (onFail : Option Dict → Dict) (c : ReloadConfiguration)
    (v : Nat) : (reloadFinish onFail c v).verifs = v := by
  unfold reloadFinish
  rcases hc : c.cache with _ | d
  · rfl
  · by_cases h : d.isEmpty <;> simp [h]

/-- What `reloadFinish` returns: the cache when it is truthy, the failure
handler's output on `None` otherwise. -/
theorem reloadFinish_ret (onFail : Option Dict → Dict) (c : ReloadConfiguration)
    (v : Nat) :
    (reloadFinish onFail c v).ret =
      .ok (match c.cache with
           | some d => if d.isEmpty then onFail none else d
           | none => onFail none) := by
  unfold reloadFinish
  rcases hc : c.cache with _ | d
  · rfl
  · by_cases h : d.isEmpty <;> simp [h]

/-- Unfolding `internal_reload` once the manifest's content is known. -/
theorem internal_reload_spec (fs : FileSystem) (sha1 : String → String)
    (gpgVerify : String → String → Bool) (onFail : Option Dict → Dict)
    (cfg : ReloadConfiguration) (content : String)
    (hm : fs cfg.hash_file = .readable content) :
    internal_reload fs sha1 gpgVerify onFail cfg =
      if dictFalsy cfg.cache || cfg.fingerprint != sha1 content then
        match gpg_sha256sums fs gpgVerify cfg.hash_file with
        | .ok m => reloadFinish onFail ⟨cfg.hash_file, some m, sha1 content⟩ 1
        | .verifyFailed => reloadFinish onFail ⟨cfg.hash_file, none, sha1 content⟩ 1
        | .ioError => ⟨.error .ioError, ⟨cfg.hash_file, cfg.cache, sha1 content⟩, 0⟩
        | .parseError => ⟨.error .parseError, ⟨cfg.hash_file, cfg.cache, sha1 content⟩, 1⟩
      else reloadFinish onFail cfg 0 := by
  unfold internal_reload
  rw [hm]

/-- `internal_reload` escapes with an `OSError`, configuration untouched,
when the manifest cannot be fingerprinted. -/
theorem internal_reload_io (fs : FileSystem) (sha1 : String → String)
    (gpgVerify : String → String → Bool) (onFail : Option Dict → Dict)
    (cfg : ReloadConfiguration)
    (hm : fs cfg.hash_file = .missing ∨ fs cfg.hash_file = .statError ∨
      fs cfg.hash_file = .unreadable) :
    internal_reload fs sha1 gpgVerify onFail cfg = ⟨.error .ioError, cfg, 0⟩ := by
  unfold internal_reload
  rcases hm with h | h | h <;> rw [h]

/-- `internal_reload` never changes the manifest path. -/
theorem internal_reload_hash_file (fs : FileSystem) (sha1 : String → String)
    (gpgVerify : String → String → Bool) (onFail : Option Dict → Dict)
    (cfg : ReloadConfiguration) :
    (internal_reload fs sha1 gpgVerify onFail cfg).cfg.hash_file = cfg.hash_file := by
  cases hfs : fs cfg.hash_file
  case readable content =>
    rw [internal_reload_spec fs sha1 gpgVerify onFail cfg content hfs]
    by_cases hb : (dictFalsy cfg.cache || cfg.fingerprint != sha1 content) = true
    · rw [if_pos hb]
      cases gpg_sha256sums fs gpgVerify cfg.hash_file <;> simp [reloadFinish_cfg]
    · rw [if_neg hb, reloadFinish_cfg]
  all_goals rw [internal_reload_io fs sha1 gpgVerify onFail cfg (by simp [hfs])]

/-- After a call that could fingerprint the manifest, the stored
fingerprint equals the manifest's current fingerprint. -/
theorem internal_reload_fingerprint (fs : FileSystem) (sha1 : String → String)
    (gpgVerify : String → String → Bool) (onFail : Option Dict → Dict)
    (cfg : ReloadConfiguration) (content : String)
    (hm : fs cfg.hash_file = .readable content) :
    (internal_reload fs sha1 gpgVerify onFail cfg).cfg.fingerprint = sha1 content := by
  rw [internal_reload_spec fs sha1 gpgVerify onFail cfg content hm]
  by_cases hb : (dictFalsy cfg.cache || cfg.fingerprint != sha1 content) = true
  · rw [if_pos hb]
    cases gpg_sha256sums fs gpgVerify cfg.hash_file <;> simp [reloadFinish_cfg]
  · rw [if_neg hb, reloadFinish_cfg]
    simp only [Bool.or_eq_true, bne_iff_ne, ne_eq, not_or, not_not] at hb
    exact hb.2

/-- One malformed line fails the whole parsing loop, whatever the
accumulator holds. -/
theorem parseLines_none_of_bad (line : String) (hbad : parseLine line = none) :
    ∀ lines : List String, line ∈ lines → ∀ acc : Dict, parseLines lines acc = none := by
  intro lines
  induction lines with
  | nil => intro hmem; cases hmem
  | cons l rest ih =>
    intro hmem acc
    rcases List.mem_cons.mp hmem with h | h
    · subst h
      simp [parseLines, hbad]
    · cases hpl : parseLine l with
      | none => simp [parseLines, hpl]
      | some pr =>
        rcases pr with ⟨a, b⟩
        simp only [parseLines, hpl]
        exact ih h _

/-! ## C1 -/

/-- C1 counterexample: the claim says that whenever the candidate's hash has
an entry in the mapping, the outcome is decided by comparing the recorded
filename with the basename (`SUCCESS` or `INVALID_NAME`).  But `verify`
tests `if not assumed_name`, which is also true for the **empty-string**
filename (producible by a manifest line such as `"h  x/\n"`), so a present
entry mapping to `""` yields `INVALID_HASH` where the claim demands
`INVALID_NAME`. -/
theorem C1_empty_name_counterexample :
    dget [("h", "")] "h" = some "" ∧
    basename "f" ≠ "" ∧
    verify fsF (fun _ => "h") [("h", "")] "f" = .ok .INVALID_HASH ∧
    verify fsF (fun _ => "h") [("h", "")] "f" ≠ .ok .INVALID_NAME := by
  refine ⟨rfl, by decide, rfl, by decide⟩

/-- C1 (amended): `verify` is a four-way classifier evaluated in a fixed
order — a path that is not an existing regular file is `INVALID_FILE`;
otherwise a content hash with no entry in the mapping, **or whose entry
records the empty-string filename**, is `INVALID_HASH`; otherwise the result
is `SUCCESS` when the recorded filename equals the candidate's basename and
`INVALID_NAME` when it does not. -/
theorem C1_verify_four_way_classifier (fs : FileSystem) (sha256 : String → String)
    (sums : Dict) (p : String) :
    ((fs p = .missing ∨ fs p = .statError) →
      verify fs sha256 sums p = .ok .INVALID_FILE) ∧
    (∀ content, fs p = .readable content →
      ((dget sums (sha256 content) = none ∨ dget sums (sha256 content) = some "") →
        verify fs sha256 sums p = .ok .INVALID_HASH) ∧
      (∀ n, dget sums (sha256 content) = some n → n ≠ "" →
        verify fs sha256 sums p =
          .ok (if n = basename p then .SUCCESS else .INVALID_NAME))) := by
  refine ⟨fun h => ?_, fun content hc => ⟨fun h => ?_, fun n hn hne => ?_⟩⟩
  · rcases h with h | h <;> simp [verify, h]
  · rcases h with h | h <;> simp [verify, hc, h]
  · rcases eq_or_ne n (basename p) with he | he
    · subst he
      simp [verify, hc, hn, hne]
    · simp [verify, hc, hn, hne, he]

/-- C1 witness: a concrete run through the `SUCCESS` branch of the amended
classifier. -/
theorem C1_verify_four_way_classifier_witness :
    verify (fun p => if p = "d/n" then FileState.readable "body" else .missing)
      (fun _ => "h") [("h", "n")] "d/n" = .ok .SUCCESS := by
  have h := ((C1_verify_four_way_classifier
      (fun p => if p = "d/n" then FileState.readable "body" else .missing)
      (fun _ => "h") [("h", "n")] "d/n").2 "body" (by decide)).2 "n" rfl (by decide)
  exact h.trans (by decide)

/-! ## C9 -/

/-- C9 counterexample: `fsU "f"` is an existing regular file
(`is_file` is true) whose bytes cannot be read, and `verify` raises the
`OSError` (modelled `Except.error ()`) instead of returning
`INVALID_FILE`. -/
theorem C9_unreadable_raises_counterexample :
    is_file (fsU "f") = true ∧
    verify fsU (fun _ => "h") [] "f" = .error () ∧
    verify fsU (fun _ => "h") [] "f" ≠ .ok .INVALID_FILE := by
  refine ⟨rfl, rfl, by decide⟩

/-- C9 (amended): an I/O error during the existence check itself surfaces as
`INVALID_FILE` (because `Path.is_file` swallows the `OSError` and reports
`False`), but a candidate that passes the regular-file check and then fails
to open makes `verify` raise — the open is not guarded by any handler. -/
theorem C9_candidate_io_errors (fs : FileSystem) (sha256 : String → String)
    (sums : Dict) (p : String) :
    (fs p = .statError → verify fs sha256 sums p = .ok .INVALID_FILE) ∧
    (fs p = .unreadable → verify fs sha256 sums p = .error ()) := by
  constructor <;> intro h <;> simp [verify, h]

/-- C9 witness: a stat failure on the candidate is reported as
`INVALID_FILE`. -/
theorem C9_candidate_io_errors_witness :
    verify fsStat (fun _ => "h") [] "f" = .ok .INVALID_FILE :=
  (C9_candidate_io_errors fsStat (fun _ => "h") [] "f").1 rfl

/-! ## C5 -/

/-- C5 counterexample: when the sibling `.asc` file is absent,
`gpg_sha256sums` raises the `OSError` from `asc_path.open` (there is no
handler), i.e. it ends in the hard fault `ioError` and not in the
"verification failed / no mapping" signal the claim demands. -/
theorem C5_missing_asc_raises_counterexample :
    fsNoAsc "m.asc" = .missing ∧
    gpg_sha256sums fsNoAsc gvTrue "m" = .ioError ∧
    gpg_sha256sums fsNoAsc gvTrue "m" ≠ .verifyFailed := by
  refine ⟨rfl, rfl, by decide⟩

/-- C5 (amended): if the sibling signature file (manifest path plus the
fixed `.asc` suffix) is absent or unreadable, `gpg_sha256sums` raises the
I/O error as a hard fault; if it is readable but the signature does not
validate, the function returns the "verification failed" (no mapping)
signal.  In both cases the outcome is fixed before the manifest is opened,
so no line of the manifest is ever parsed. -/
theorem C5_signature_gate (fs : FileSystem) (gv : String → String → Bool)
    (hash_file : String) :
    ((fs (hash_file ++ ".asc") = .missing ∨ fs (hash_file ++ ".asc") = .statError ∨
        fs (hash_file ++ ".asc") = .unreadable) →
      gpg_sha256sums fs gv hash_file = .ioError) ∧
    (∀ sig, fs (hash_file ++ ".asc") = .readable sig → gv sig hash_file = false →
      gpg_sha256sums fs gv hash_file = .verifyFailed) := by
  constructor
  · rintro (h | h | h) <;> simp [gpg_sha256sums, h]
  · intro sig ha hv
    simp [gpg_sha256sums, ha, hv]

/-- C5 witness: a readable signature that does not validate yields the
no-mapping signal. -/
theorem C5_signature_gate_witness :
    gpg_sha256sums (fsWith "c") gvFalse "m" = .verifyFailed :=
  (C5_signature_gate (fsWith "c") gvFalse "m").2 "s" (by decide) rfl

/-! ## C6 -/

/-- C6 counterexample: a signature-verified manifest whose single line has
no two-space separator makes the whole load end in the uncaught
`ValueError` (`parseError`), not in the "no trusted manifest" signal the
claim describes; at the provider level the exception escapes
`internal_reload` instead of reaching the failure handler. -/
theorem C6_malformed_is_exception_counterexample :
    parseLine "nosep\n" = none ∧
    gpg_sha256sums (fsWith "nosep\n") gvTrue "m" = .parseError ∧
    gpg_sha256sums (fsWith "nosep\n") gvTrue "m" ≠ .verifyFailed ∧
    (internal_reload (fsWith "nosep\n") id gvTrue onFailEmpty cfgFresh).ret =
      .error .parseError := by
  refine ⟨rfl, rfl, by decide, rfl⟩

/-- C6 (amended): a signature-verified manifest containing at least one
line without the expected two-space separator fails the whole load — no
line is accepted and no mapping is produced — but it does so by raising an
uncaught `ValueError` (a hard fault), not by returning the
"no trusted manifest" signal. -/
theorem C6_malformed_line_fails_load (fs : FileSystem) (gv : String → String → Bool)
    (hash_file sig content line : String)
    (ha : fs (hash_file ++ ".asc") = .readable sig) (hv : gv sig hash_file = true)
    (hm : fs hash_file = .readable content)
    (hmem : line ∈ readlines content) (hbad : parseLine line = none) :
    gpg_sha256sums fs gv hash_file = .parseError := by
  simp [gpg_sha256sums, ha, hv, hm,
    parseLines_none_of_bad line hbad (readlines content) hmem []]

/-- C6 witness: the concrete separator-free manifest from the
counterexample, run through the amended theorem. -/
theorem C6_malformed_line_fails_load_witness :
    gpg_sha256sums (fsWith "nosep\n") gvTrue "m" = .parseError :=
  C6_malformed_line_fails_load (fsWith "nosep\n") gvTrue "m" "s" "nosep\n" "nosep\n"
    (by decide) rfl (by decide) (by decide) rfl

/-! ## C7 -/

/-- C7 counterexample: the claim says a line whose filename part contains a
further two-space run is still split at the first occurrence and parsed
(misattributing the name).  In fact `line.split("  ")` splits at **every**
occurrence, the two-name unpacking raises `ValueError`, and the whole load
fails. -/
theorem C7_second_separator_fails_counterexample :
    splitTwoSpace "h  a  b\n" = ["h", "a", "b\n"] ∧
    parseLine "h  a  b\n" = none ∧
    gpg_sha256sums (fsWith "h  a  b\n") gvTrue "m" = .parseError := by
  refine ⟨rfl, rfl, rfl⟩

/-- C7 (amended): a line is parsed exactly when `line.split("  ")` has
exactly two parts; then the part before the separator is the hash key and
the remainder — surrounding whitespace stripped, leading path removed down
to the segment after the last `/` — is the expected filename.  A line with
zero, or more than one, two-space run does not parse (the unpacking raises,
failing the whole manifest), rather than being split at the first
occurrence only. -/
theorem C7_line_splitting (line hsum fname : String) :
    (splitTwoSpace line = [hsum, fname] →
      parseLine line = some (hsum, pyStrip (basename fname))) ∧
    ((splitTwoSpace line).length ≠ 2 → parseLine line = none) := by
  constructor
  · intro hs
    simp [parseLine, hs]
  · intro hs
    cases hsp : splitTwoSpace line with
    | nil => simp [parseLine, hsp]
    | cons a t =>
      cases t with
      | nil => simp [parseLine, hsp]
      | cons b t2 =>
        cases t2 with
        | nil => exact absurd (by rw [hsp]; rfl : (splitTwoSpace line).length = 2) hs
        | cons c t3 => simp [parseLine, hsp]

/-- C7 witness: a well-formed line with a path-qualified name parses to the
normalized basename. -/
theorem C7_line_splitting_witness :
    parseLine "h  dir/name\n" = some ("h", "name") :=
  ((C7_line_splitting "h  dir/name\n" "h" "dir/name\n").1 rfl).trans (by decide)

/-! ## Further reload lemmas -/

/-- The cache after a reload attempt: the fresh mapping on success, `None`
on verification failure, and the **old** cache when the attempt raised. -/
theorem internal_reload_cache (fs : FileSystem) (sha1 : String → String)
    (gv : String → String → Bool) (onFail : Option Dict → Dict)
    (cfg : ReloadConfiguration) (content : String)
    (hm : fs cfg.hash_file = .readable content)
    (hb : (dictFalsy cfg.cache || cfg.fingerprint != sha1 content) = true) :
    (internal_reload fs sha1 gv onFail cfg).cfg.cache =
      (match gpg_sha256sums fs gv cfg.hash_file with
       | .ok m => some m
       | .verifyFailed => none
       | .ioError => cfg.cache
       | .parseError => cfg.cache) := by
  rw [internal_reload_spec fs sha1 gv onFail cfg content hm, if_pos hb]
  cases gpg_sha256sums fs gv cfg.hash_file <;> simp [reloadFinish_cfg]

/-- Cache hit: with a truthy cache and an unchanged fingerprint, the
configuration is returned untouched. -/
theorem internal_reload_same (fs : FileSystem) (sha1 : String → String)
    (gv : String → String → Bool) (onFail : Option Dict → Dict)
    (cfg : ReloadConfiguration) (content : String)
    (hm : fs cfg.hash_file = .readable content)
    (hb : ¬(dictFalsy cfg.cache || cfg.fingerprint != sha1 content) = true) :
    (internal_reload fs sha1 gv onFail cfg).cfg = cfg := by
  rw [internal_reload_spec fs sha1 gv onFail cfg content hm, if_neg hb,
    reloadFinish_cfg]

/-- Every normal return of `internal_reload` is either the failure
handler's output on `None`, or the cache as the call leaves it. -/
theorem internal_reload_ret_ok (fs : FileSystem) (sha1 : String → String)
    (gv : String → String → Bool) (onFail : Option Dict → Dict)
    (cfg : ReloadConfiguration) (r : Dict)
    (hr : (internal_reload fs sha1 gv onFail cfg).ret = .ok r) :
    r = onFail none ∨ (internal_reload fs sha1 gv onFail cfg).cfg.cache = some r := by
  cases hfs : fs cfg.hash_file
  case readable content =>
    rw [internal_reload_spec fs sha1 gv onFail cfg content hfs] at hr ⊢
    by_cases hb : (dictFalsy cfg.cache || cfg.fingerprint != sha1 content) = true
    · rw [if_pos hb] at hr ⊢
      cases hg : gpg_sha256sums fs gv cfg.hash_file with
      | ok m0 =>
        rw [hg] at hr
        dsimp only at hr
        rw [reloadFinish_ret] at hr
        rw [reloadFinish_cfg]
        by_cases he : m0.isEmpty = true <;> simp [he] at hr ⊢
        · exact Or.inl hr.symm
        · exact Or.inr hr
      | verifyFailed =>
        rw [hg] at hr
        dsimp only at hr
        rw [reloadFinish_ret] at hr
        simp at hr
        exact Or.inl hr.symm
      | ioError =>
        rw [hg] at hr
        dsimp only at hr
        exact absurd hr (by simp)
      | parseError =>
        rw [hg] at hr
        dsimp only at hr
        exact absurd hr (by simp)
    · rw [if_neg hb] at hr ⊢
      rw [reloadFinish_ret] at hr
      rw [reloadFinish_cfg]
      rcases hc : cfg.cache with _ | d <;> rw [hc] at hr
      · simp at hr
        exact Or.inl hr.symm
      · by_cases he : d.isEmpty <;> simp [he] at hr
        · exact Or.inl hr.symm
        · exact Or.inr (hr ▸ rfl)
  all_goals
    rw [internal_reload_io fs sha1 gv onFail cfg (by simp [hfs])] at hr
    simp [ReloadResult.ret] at hr

/-! ## C2 -/

/-- C2 counterexample: when signature verification fails and no manifest
was ever verified, `internal_reload` returns the failure handler's output —
here `[("h", "x")]` — to the caller as the mapping, although it was not
derived from any signature-verified manifest (the only load attempt ended
in `verifyFailed`) and no previously verified mapping exists
(`cfgFresh.cache = none`).  An unverified mapping is thus exposed where the
claim says only verified ones can be. -/
theorem C2_handler_output_exposed_counterexample :
    cfgFresh.cache = none ∧
    gpg_sha256sums (fsWith "c") gvFalse "m" = .verifyFailed ∧
    (internal_reload (fsWith "c")
      (fun _ => "f") gvFalse (fun _ => [("h", "x")]) cfgFresh).ret = .ok [("h", "x")] := by
  refine ⟨rfl, rfl, rfl⟩

/-- C2 (amended): every mapping **stored in the cache** by a call was
either already the cache beforehand or was produced by a successful
signature verification and parse of the manifest; every mapping **returned**
to a caller is either such a cache value or the output of the
caller-supplied `on_verification_failure` handler (invoked with `None`) —
the handler path returns a value that need not derive from any verified
manifest. -/
theorem C2_cache_only_holds_verified (fs : FileSystem) (sha1 : String → String)
    (gv : String → String → Bool) (onFail : Option Dict → Dict)
    (cfg : ReloadConfiguration) :
    (∀ m, (internal_reload fs sha1 gv onFail cfg).cfg.cache = some m →
      cfg.cache = some m ∨ gpg_sha256sums fs gv cfg.hash_file = .ok m) ∧
    (∀ r, (internal_reload fs sha1 gv onFail cfg).ret = .ok r →
      r = onFail none ∨ cfg.cache = some r ∨
        gpg_sha256sums fs gv cfg.hash_file = .ok r) := by
  have hcache : ∀ m, (internal_reload fs sha1 gv onFail cfg).cfg.cache = some m →
      cfg.cache = some m ∨ gpg_sha256sums fs gv cfg.hash_file = .ok m := by
    intro m hmem
    cases hfs : fs cfg.hash_file
    case readable content =>
      by_cases hb : (dictFalsy cfg.cache || cfg.fingerprint != sha1 content) = true
      · rw [internal_reload_cache fs sha1 gv onFail cfg content hfs hb] at hmem
        cases hg : gpg_sha256sums fs gv cfg.hash_file with
        | ok m0 =>
          rw [hg] at hmem
          dsimp only at hmem
          exact Or.inr (by rw [Option.some_inj.mp hmem])
        | verifyFailed =>
          rw [hg] at hmem
          dsimp only at hmem
          exact Option.noConfusion hmem
        | ioError =>
          rw [hg] at hmem
          dsimp only at hmem
          exact Or.inl hmem
        | parseError =>
          rw [hg] at hmem
          dsimp only at hmem
          exact Or.inl hmem
      · rw [internal_reload_same fs sha1 gv onFail cfg content hfs hb] at hmem
        exact Or.inl hmem
    all_goals
      rw [internal_reload_io fs sha1 gv onFail cfg (by simp [hfs])] at hmem
      exact Or.inl hmem
  refine ⟨hcache, fun r hr => ?_⟩
  rcases internal_reload_ret_ok fs sha1 gv onFail cfg r hr with h | h
  · exact Or.inl h
  · rcases hcache r h with h2 | h2
    · exact Or.inr (Or.inl h2)
    · exact Or.inr (Or.inr h2)

/-- C2 witness: a successful load stores exactly the mapping that
`gpg_sha256sums` verified and parsed. -/
theorem C2_cache_only_holds_verified_witness :
    cfgFresh.cache = some [("a", "b")] ∨
    gpg_sha256sums (fsWith "a  b\n") gvTrue "m" = .ok [("a", "b")] :=
  (C2_cache_only_holds_verified (fsWith "a  b\n") id gvTrue onFailEmpty cfgFresh).1
    [("a", "b")] rfl

/-! ## C3 -/

/-- C3 counterexample: with a non-empty cache under the stale fingerprint
`"old"` and a manifest fingerprinting to `"new"`, a failing re-validation
(`verifyFailed`) still leaves the stored fingerprint at `"new"` — the code
assigns the fingerprint **before** calling `gpg_sha256sums`, so it *is*
updated on failure, contrary to the claim.  And when re-validation raises
instead (missing `.asc`), the fingerprint is updated while the cache keeps
its old value — the pair is not replaced together. -/
theorem C3_fingerprint_updated_on_failure_counterexample :
    cfgStale.fingerprint ≠ "new" ∧
    gpg_sha256sums (fsWith "c") gvFalse "m" = .verifyFailed ∧
    (internal_reload (fsWith "c") (fun _ => "new") gvFalse onFailEmpty
      cfgStale).cfg.fingerprint = "new" ∧
    (internal_reload fsNoAsc (fun _ => "new") gvTrue onFailEmpty cfgStale).cfg =
      ⟨"m", some [("p", "q")], "new"⟩ := by
  refine ⟨by decide, rfl, rfl, rfl⟩

/-- C3 (amended): whenever the reload branch runs (falsy cache or changed
fingerprint), the stored fingerprint is updated to the newly computed one
**regardless of whether re-validation succeeds** — so a failed
re-validation is retried on the next call only because the cache is then
falsy, not because the fingerprint was held back.  The cache is replaced by
the fresh mapping on success and by `None` on verification failure, but
keeps its previous value when re-validation raises — fingerprint and cache
are not replaced atomically in that case. -/
theorem C3_reload_updates_fingerprint_first (fs : FileSystem)
    (sha1 : String → String) (gv : String → String → Bool)
    (onFail : Option Dict → Dict) (cfg : ReloadConfiguration) (content : String)
    (hm : fs cfg.hash_file = .readable content)
    (hb : (dictFalsy cfg.cache || cfg.fingerprint != sha1 content) = true) :
    (internal_reload fs sha1 gv onFail cfg).cfg.fingerprint = sha1 content ∧
    (internal_reload fs sha1 gv onFail cfg).cfg.cache =
      (match gpg_sha256sums fs gv cfg.hash_file with
       | .ok m => some m
       | .verifyFailed => none
       | .ioError => cfg.cache
       | .parseError => cfg.cache) :=
  ⟨internal_reload_fingerprint fs sha1 gv onFail cfg content hm,
   internal_reload_cache fs sha1 gv onFail cfg content hm hb⟩

/-- C3 witness: the failing-re-validation scenario of the counterexample,
run through the amended theorem. -/
theorem C3_reload_updates_fingerprint_first_witness :
    (internal_reload (fsWith "c") (fun _ => "new") gvFalse onFailEmpty
      cfgStale).cfg.fingerprint = "new" ∧
    (internal_reload (fsWith "c") (fun _ => "new") gvFalse onFailEmpty
      cfgStale).cfg.cache =
      (match gpg_sha256sums (fsWith "c") gvFalse "m" with
       | .ok m => some m
       | .verifyFailed => none
       | .ioError => cfgStale.cache
       | .parseError => cfgStale.cache) :=
  C3_reload_updates_fingerprint_first (fsWith "c") (fun _ => "new") gvFalse
    onFailEmpty cfgStale "c" rfl (by decide)

/-! ## C4 -/

/-- C4 counterexample: with a previous non-empty cache (`cfgStale.cache`)
and a failing re-validation, the failure handler receives `None` — its
output is the `none`-branch value `[("N", "N")]`, not the `some`-branch
value it would produce had the previous cached manifest been passed, which
the claim requires. -/
theorem C4_handler_not_given_previous_cache_counterexample :
    cfgStale.cache = some [("p", "q")] ∧
    gpg_sha256sums (fsWith "c") gvFalse "m" = .verifyFailed ∧
    (internal_reload (fsWith "c") (fun _ => "new") gvFalse onFailProbe
      cfgStale).ret = .ok [("N", "N")] ∧
    onFailProbe (some [("p", "q")]) = [("S", "S")] ∧
    ([("N", "N")] : Dict) ≠ [("S", "S")] := by
  refine ⟨rfl, rfl, rfl, rfl, by decide⟩

/-- C4 (amended): when re-validation fails, `internal_reload` invokes the
failure handler with `None` — never with the previous cached manifest,
which has already been overwritten by that point — returns the handler's
output for this call only, and stores `None` (not the handler's output) as
the cache. -/
theorem C4_failure_handler_gets_none (fs : FileSystem) (sha1 : String → String)
    (gv : String → String → Bool) (onFail : Option Dict → Dict)
    (cfg : ReloadConfiguration) (content : String)
    (hm : fs cfg.hash_file = .readable content)
    (hb : (dictFalsy cfg.cache || cfg.fingerprint != sha1 content) = true)
    (hg : gpg_sha256sums fs gv cfg.hash_file = .verifyFailed) :
    internal_reload fs sha1 gv onFail cfg =
      ⟨.ok (onFail none), ⟨cfg.hash_file, none, sha1 content⟩, 1⟩ := by
  rw [internal_reload_spec fs sha1 gv onFail cfg content hm, if_pos hb, hg]
  rfl

/-- C4 witness: the counterexample scenario, run through the amended
theorem. -/
theorem C4_failure_handler_gets_none_witness :
    internal_reload (fsWith "c") (fun _ => "new") gvFalse onFailProbe cfgStale =
      ⟨.ok (onFailProbe none), ⟨"m", none, "new"⟩, 1⟩ :=
  C4_failure_handler_gets_none (fsWith "c") (fun _ => "new") gvFalse onFailProbe
    cfgStale "c" rfl (by decide) rfl

/-! ## C8 -/

/-- C8 counterexample: with an unchanged manifest that validates but parses
to the **empty** mapping, each of two consecutive provider calls runs a
signature verification — two in total, not the "exactly one" the claim
asserts: the empty cache is falsy, so the second call never takes the
cache-hit path. -/
theorem C8_empty_mapping_reverifies_counterexample :
    (internal_reload (fsWith "") id gvTrue onFailEmpty cfgFresh).verifs = 1 ∧
    (internal_reload (fsWith "") id gvTrue onFailEmpty
      (internal_reload (fsWith "") id gvTrue onFailEmpty cfgFresh).cfg).verifs = 1 := by
  refine ⟨rfl, rfl⟩

/-- C8 (amended): when a call on an unchanged manifest leaves a
**non-empty** cached mapping, the next call with the same manifest bytes is
a pure cache hit: it returns exactly that mapping, performs zero signature
verifications, and leaves the state untouched.  (When the cache ends up
empty or absent — empty parsed mapping or failed verification — the next
call re-verifies instead.) -/
theorem C8_second_call_is_cache_hit (fs : FileSystem) (sha1 : String → String)
    (gv : String → String → Bool) (onFail : Option Dict → Dict)
    (cfg : ReloadConfiguration) (content : String) (d : Dict)
    (hm : fs cfg.hash_file = .readable content)
    (h1 : (internal_reload fs sha1 gv onFail cfg).cfg.cache = some d)
    (h2 : d.isEmpty = false) :
    internal_reload fs sha1 gv onFail (internal_reload fs sha1 gv onFail cfg).cfg =
      ⟨.ok d, (internal_reload fs sha1 gv onFail cfg).cfg, 0⟩ := by
  have hh : (internal_reload fs sha1 gv onFail cfg).cfg.hash_file = cfg.hash_file :=
    internal_reload_hash_file fs sha1 gv onFail cfg
  have hf : (internal_reload fs sha1 gv onFail cfg).cfg.fingerprint = sha1 content :=
    internal_reload_fingerprint fs sha1 gv onFail cfg content hm
  have hm2 : fs (internal_reload fs sha1 gv onFail cfg).cfg.hash_file =
      .readable content := by
    rw [hh]
    exact hm
  have hb2 : ¬(dictFalsy (internal_reload fs sha1 gv onFail cfg).cfg.cache ||
      (internal_reload fs sha1 gv onFail cfg).cfg.fingerprint != sha1 content) = true := by
    rw [h1, hf]
    simp [dictFalsy, h2]
  rw [internal_reload_spec fs sha1 gv onFail _ content hm2, if_neg hb2]
  unfold reloadFinish
  rw [h1]
  simp [h2]

/-- C8 witness: a verified one-entry manifest; the second call is a
verification-free cache hit returning the same mapping. -/
theorem C8_second_call_is_cache_hit_witness :
    internal_reload (fsWith "a  b\n") id gvTrue onFailEmpty
      (internal_reload (fsWith "a  b\n") id gvTrue onFailEmpty cfgFresh).cfg =
      ⟨.ok [("a", "b")],
        (internal_reload (fsWith "a  b\n") id gvTrue onFailEmpty cfgFresh).cfg, 0⟩ :=
  C8_second_call_is_cache_hit (fsWith "a  b\n") id gvTrue onFailEmpty cfgFresh
    "a  b\n" [("a", "b")] rfl rfl rfl

/-! ## C10 -/

/-- C10: when the signature verifies but the manifest parses to the empty
mapping, the provider treats "validated but empty" exactly like "no cache":
even with an unchanged fingerprint and the cached empty mapping in place,
the call re-runs the full signature verification (one verification
performed) and returns `on_verification_failure` applied to `None` — not
the verified empty mapping. -/
theorem C10_validated_but_empty_like_no_cache (fs : FileSystem)
    (sha1 : String → String) (gv : String → String → Bool)
    (onFail : Option Dict → Dict) (cfg : ReloadConfiguration)
    (content sig : String)
    (hm : fs cfg.hash_file = .readable content)
    (ha : fs (cfg.hash_file ++ ".asc") = .readable sig)
    (hv : gv sig cfg.hash_file = true)
    (hp : parseLines (readlines content) [] = some [])
    (_hfp : cfg.fingerprint = sha1 content)
    (hc : cfg.cache = some []) :
    internal_reload fs sha1 gv onFail cfg =
      ⟨.ok (onFail none), ⟨cfg.hash_file, some [], sha1 content⟩, 1⟩ := by
  have hg : gpg_sha256sums fs gv cfg.hash_file = .ok [] := by
    simp [gpg_sha256sums, ha, hv, hm, hp]
  rw [internal_reload_spec fs sha1 gv onFail cfg content hm,
    if_pos (by rw [hc]; rfl), hg]
  rfl

/-- C10 witness: the concrete validated-but-empty state re-verifies and
answers with the failure handler's output. -/
theorem C10_validated_but_empty_like_no_cache_witness :
    internal_reload (fsWith "") (fun _ => "") gvTrue onFailProbe ⟨"m", some [], ""⟩ =
      ⟨.ok (onFailProbe none), ⟨"m", some [], ""⟩, 1⟩ :=
  C10_validated_but_empty_like_no_cache (fsWith "") (fun _ => "") gvTrue onFailProbe
    ⟨"m", some [], ""⟩ "" "s" rfl rfl rfl rfl rfl rfl
